import Mathlib

/-!
Shallow embedding of the BrandForge logo composer and of its PDF export
routine (a React/TypeScript single page application).  The data types
follow the TypeScript interfaces (TextLayer and the logoSettings record
of BrandGeneratedData.visuals); the operations follow the handlers of
the ProjectEditor component (shape selector onClick, updateSelectedText,
deleteSelectedText, handleMouseDown, handleMouseMove, canvas onClick)
and the exportToPDF function.  JavaScript numbers are modelled as Int
for pixel coordinates; the PDF vertical cursor is kept in fifths of a
millimetre so that the 0.4 line height factor of the source is exact
integer arithmetic (0.4 equals 2/5, every constant is scaled by 5).
-/

/-- Container shape enumeration, from the logoSettings.shape union type
in the TypeScript types file. -/
inductive Shape
  | none
  | circle
  | square
  | rounded
  | triangle
  | hexagon
  | rectangle
  | oval
deriving DecidableEq, Repr

/-- Text alignment enumeration, from the TextLayer.align union type. -/
inductive Align
  | left
  | center
  | right
deriving DecidableEq, Repr

/-- One text layer of the logo composer, from the TextLayer interface. -/
structure TextLayer where
  id : String
  text : String
  x : Int
  y : Int
  fontSize : Int
  fontFamily : String
  color : String
  spacing : Int
  rotation : Int
  fontWeight : String
  align : Align
deriving DecidableEq, Repr

/-- The logoSettings record of BrandGeneratedData.visuals: container,
icon and the ordered text layer collection. -/
structure LogoSettings where
  bgColor : String
  shape : Shape
  width : Int
  height : Int
  borderRadius : Int
  iconColor : String
  iconSize : Int
  tintIcon : Bool
  textElements : List TextLayer
deriving DecidableEq, Repr

/-- A partial TextLayer update, modelling the TypeScript type
Partial TextLayer that updateSelectedText receives: every field of
TextLayer is optional, an absent field leaves the layer field alone. -/
structure TextUpdate where
  id : Option String := Option.none
  text : Option String := Option.none
  x : Option Int := Option.none
  y : Option Int := Option.none
  fontSize : Option Int := Option.none
  fontFamily : Option String := Option.none
  color : Option String := Option.none
  spacing : Option Int := Option.none
  rotation : Option Int := Option.none
  fontWeight : Option String := Option.none
  align : Option Align := Option.none
deriving DecidableEq, Repr

/-- The object spread of the source, the expression written as a merge
of el with updates inside updateSelectedText: a field present in the
update overrides the layer field, an absent field keeps it. -/
def mergeLayer (el : TextLayer) (u : TextUpdate) : TextLayer :=
  { id := u.id.getD el.id
    text := u.text.getD el.text
    x := u.x.getD el.x
    y := u.y.getD el.y
    fontSize := u.fontSize.getD el.fontSize
    fontFamily := u.fontFamily.getD el.fontFamily
    color := u.color.getD el.color
    spacing := u.spacing.getD el.spacing
    rotation := u.rotation.getD el.rotation
    fontWeight := u.fontWeight.getD el.fontWeight
    align := u.align.getD el.align }

/-- The editor state of the ProjectEditor component that the composer
handlers touch: the logoSettings record (held inside the generated
data), the selectedElementId React state, and the isDragging and
dragStart refs. -/
structure EditorState where
  settings : LogoSettings
  selectedElementId : Option String
  isDragging : Bool
  dragStart : Int × Int
deriving DecidableEq, Repr

/-- Embedding of updateSelectedText: when no element is selected it
returns at once, otherwise it maps over textElements and merges the
update into every element whose id equals the selected id. -/
def updateSelectedTextFn (st : EditorState) (u : TextUpdate) : EditorState :=
  match st.selectedElementId with
  | Option.none => st
  | Option.some i =>
      let upd := fun el => if el.id == i then mergeLayer el u else el
      { st with settings :=
          { st.settings with textElements := st.settings.textElements.map upd } }

/-- Embedding of deleteSelectedText: when no element is selected it
returns at once, otherwise it filters the selected id out of
textElements and clears the selection. -/
def deleteSelectedTextFn (st : EditorState) : EditorState :=
  match st.selectedElementId with
  | Option.none => st
  | Option.some i =>
      { st with
        settings :=
          { st.settings with textElements :=
              st.settings.textElements.filter (fun el => !(el.id == i)) }
        selectedElementId := Option.none }

/-- Embedding of handleMouseDown on a text layer: select that layer,
raise the isDragging flag and record the pointer position. -/
def handleMouseDown (st : EditorState) (i : String) (p : Int × Int) : EditorState :=
  { st with selectedElementId := Option.some i, isDragging := true, dragStart := p }

/-- Embedding of the canvas background onClick handler: clear the
selection. -/
def canvasBackgroundClick (st : EditorState) : EditorState :=
  { st with selectedElementId := Option.none }

/-- Embedding of handleMouseMove: when not dragging or nothing is
selected, return unchanged; otherwise compute the pointer delta against
dragStart, move the selected element by that delta through
updateSelectedText, and record the new pointer position in dragStart. -/
def handleMouseMove (st : EditorState) (p : Int × Int) : EditorState :=
  match st.isDragging, st.selectedElementId with
  | true, Option.some i =>
      let dx := p.1 - st.dragStart.1
      let dy := p.2 - st.dragStart.2
      let stMoved :=
        match st.settings.textElements.find? (fun el => el.id == i) with
        | Option.some el =>
            updateSelectedTextFn st
              { x := Option.some (el.x + dx), y := Option.some (el.y + dy) }
        | Option.none => st
      { stMoved with dragStart := p }
  | _, _ => st

/-- Embedding of the shape selector button onClick handler: change the
shape and reset the container size; rectangle and oval get 500 by 300,
every other shape gets 400 by 400. -/
def shapeClick (ls : LogoSettings) (s : Shape) : LogoSettings :=
  if s = Shape.rectangle then { ls with shape := s, width := 500, height := 300 }
  else if s = Shape.oval then { ls with shape := s, width := 500, height := 300 }
  else { ls with shape := s, width := 400, height := 400 }

/-- Embedding of the borderRadius style expression of the container div
in the composer canvas, the nested conditional on logoSettings.shape. -/
def borderRadiusStyle (ls : LogoSettings) : String :=
  if ls.shape = Shape.circle then "50%"
  else if ls.shape = Shape.oval then "50%"
  else if ls.shape = Shape.rounded then "40px"
  else if ls.shape = Shape.square ∨ ls.shape = Shape.rectangle then "0px"
  else toString ls.borderRadius ++ "px"

/-- Embedding of the clipPath style expression of the container div in
the composer canvas. -/
def clipPathStyle (ls : LogoSettings) : String :=
  if ls.shape = Shape.triangle then "polygon(50% 0%, 0% 100%, 100% 100%)"
  else if ls.shape = Shape.hexagon then
    "polygon(25% 0%, 75% 0%, 100% 50%, 75% 100%, 25% 100%, 0% 50%)"
  else "none"

/-- Modelled from the claim wording: the fixed border radius table of
the specification, written shape by shape, to be compared with the
source expression borderRadiusStyle. -/
def specBorderRadius (s : Shape) (cornerRadius : Int) : String :=
  match s with
  | Shape.circle => "50%"
  | Shape.oval => "50%"
  | Shape.rounded => "40px"
  | Shape.square => "0px"
  | Shape.rectangle => "0px"
  | Shape.triangle => toString cornerRadius ++ "px"
  | Shape.hexagon => toString cornerRadius ++ "px"
  | Shape.none => toString cornerRadius ++ "px"

/-- Modelled from the claim wording: the fixed clip path table of the
specification, written shape by shape, to be compared with the source
expression clipPathStyle. -/
def specClipPath (s : Shape) : String :=
  match s with
  | Shape.triangle => "polygon(50% 0%, 0% 100%, 100% 100%)"
  | Shape.hexagon => "polygon(25% 0%, 75% 0%, 100% 50%, 75% 100%, 25% 100%, 0% 50%)"
  | _ => "none"

/-- A concrete container state for counterexamples and witnesses: the
seeded default of the source (shape none, 400 by 400, transparent). -/
def sampleSettings : LogoSettings :=
  { bgColor := "transparent"
    shape := Shape.none
    width := 400
    height := 400
    borderRadius := 0
    iconColor := "#4f46e5"
    iconSize := 150
    tintIcon := false
    textElements := [] }

/-- C1 counterexample: setting the shape to oval does not reset the
container to 400 by 400 as the claim states; from the default container
the oval button yields width 500 and height 300. -/
theorem shapeClick_oval_cex :
    ¬ ((shapeClick sampleSettings Shape.oval).width = 400 ∧
       (shapeClick sampleSettings Shape.oval).height = 400) := by
  decide

/-- C1 (amended): setting the shape to rectangle or to oval always
yields width 500 and height 300 regardless of the prior size; setting
any of the other six shapes (none, square, rounded, circle, triangle,
hexagon) resets width and height to 400 by 400, for every prior
container state; the chosen shape is stored in both cases. -/
theorem shapeClick_resets_size (ls : LogoSettings) (s : Shape) :
    ((s = Shape.rectangle ∨ s = Shape.oval) →
        shapeClick ls s = { ls with shape := s, width := 500, height := 300 }) ∧
    ((s ≠ Shape.rectangle ∧ s ≠ Shape.oval) →
        shapeClick ls s = { ls with shape := s, width := 400, height := 400 }) := by
  cases s <;> simp [shapeClick]

/-- C1 witness: the amended theorem applied to the default container at
the shapes rectangle and circle. -/
theorem shapeClick_resets_size_witness :
    shapeClick sampleSettings Shape.rectangle =
      { sampleSettings with shape := Shape.rectangle, width := 500, height := 300 } ∧
    shapeClick sampleSettings Shape.circle =
      { sampleSettings with shape := Shape.circle, width := 400, height := 400 } :=
  ⟨(shapeClick_resets_size sampleSettings Shape.rectangle).1 (Or.inl rfl),
   (shapeClick_resets_size sampleSettings Shape.circle).2 (by decide)⟩

/-- C3: the style resolution from the container shape to the clip and
border parameters is exactly the fixed table of the specification, for
every container state: circle and oval give the 50 percent full round
radius, rounded gives the fixed 40px corner, square and rectangle give
0, triangle gives the 3 point polygon with apex at top center and base
at the bottom corners, hexagon gives the 6 point symmetric polygon, and
the default case uses the cornerRadius value verbatim. -/
theorem style_resolver_table (ls : LogoSettings) :
    borderRadiusStyle ls = specBorderRadius ls.shape ls.borderRadius ∧
    clipPathStyle ls = specClipPath ls.shape := by
  constructor <;>
    · cases h : ls.shape <;>
        simp [borderRadiusStyle, clipPathStyle, specBorderRadius, specClipPath, h]

/-- Selection events of the canvas controller: pointer down on a text
layer (handleMouseDown), a click on the empty canvas background (the
canvas onClick), and the delete action on the selected layer. -/
inductive CanvasEvent
  | pointerDownOnLayer (id : String) (p : Int × Int)
  | backgroundClick
  | deleteSelected
deriving DecidableEq, Repr

/-- Dispatch of one selection event to the corresponding handler. -/
def stepEvent (st : EditorState) : CanvasEvent → EditorState
  | CanvasEvent.pointerDownOnLayer i p => handleMouseDown st i p
  | CanvasEvent.backgroundClick => canvasBackgroundClick st
  | CanvasEvent.deleteSelected => deleteSelectedTextFn st

/-- Folding a finite sequence of selection events over the editor. -/
def applyEvents (st : EditorState) (evs : List CanvasEvent) : EditorState :=
  evs.foldl stepEvent st

/-- The list of selected text layer ids: the selectedElementId state is
a single nullable value, read out as a zero or one element list. -/
def selectedIds (st : EditorState) : List String :=
  st.selectedElementId.toList

/-- C4: for every sequence of selection events at most one text layer
id is selected after each step; pointer down on a layer selects exactly
that layer and thereby deselects any other; clicking the empty canvas
background clears the selection; and the delete action clears the
selection. -/
theorem selection_exclusivity (st : EditorState) (evs : List CanvasEvent)
    (i : String) (p : Int × Int) :
    (selectedIds (applyEvents st evs)).length ≤ 1 ∧
    selectedIds (stepEvent st (CanvasEvent.pointerDownOnLayer i p)) = [i] ∧
    selectedIds (stepEvent st CanvasEvent.backgroundClick) = [] ∧
    selectedIds (stepEvent st CanvasEvent.deleteSelected) = [] := by
  refine ⟨?_, rfl, rfl, ?_⟩
  · cases h : (applyEvents st evs).selectedElementId <;> simp [selectedIds, h]
  · cases h : st.selectedElementId <;>
      simp [selectedIds, stepEvent, deleteSelectedTextFn, h]

/-- C5: updateSelectedText with a selected id that matches no layer in
the collection leaves the whole editor state unchanged and raises no
error, for every collection state and every partial field update. -/
theorem updateSelectedText_unknown_id_noop (st : EditorState) (u : TextUpdate) (i : String)
    (hs : st.selectedElementId = Option.some i)
    (hni : ∀ el ∈ st.settings.textElements, el.id ≠ i) :
    updateSelectedTextFn st u = st := by
  have hmap : st.settings.textElements.map
      (fun el => if el.id == i then mergeLayer el u else el) = st.settings.textElements := by
    conv_rhs => rw [← List.map_id st.settings.textElements]
    refine List.map_congr_left ?_
    intro el hel
    simp [hni el hel]
  simp only [updateSelectedTextFn, hs, hmap]
  rw [← hs]

/-- A concrete text layer for witnesses and counterexamples. -/
def sampleLayer : TextLayer :=
  { id := "a"
    text := "ACME"
    x := 200
    y := 280
    fontSize := 32
    fontFamily := "Montserrat"
    color := "#4f46e5"
    spacing := 0
    rotation := 0
    fontWeight := "bold"
    align := Align.center }

/-- A concrete editor state holding one text layer with id a, selected. -/
def sampleEditor : EditorState :=
  { settings := { sampleSettings with textElements := [sampleLayer] }
    selectedElementId := Option.some "a"
    isDragging := false
    dragStart := (0, 0) }

/-- A concrete editor state whose selected id z matches no layer. -/
def staleEditor : EditorState :=
  { settings := { sampleSettings with textElements := [sampleLayer] }
    selectedElementId := Option.some "z"
    isDragging := false
    dragStart := (0, 0) }

/-- C5 witness: the no-op theorem applied to a stale selected id over a
one layer collection, with a font size update. -/
theorem updateSelectedText_unknown_id_noop_witness :
    updateSelectedTextFn staleEditor { fontSize := Option.some 44 } = staleEditor :=
  updateSelectedText_unknown_id_noop staleEditor { fontSize := Option.some 44 } "z"
    rfl (by decide)

/-- Helper: find? by id commutes with a map that preserves ids. -/
theorem find?_map_of_id_preserved (l : List TextLayer) (f : TextLayer → TextLayer)
    (i : String) (hf : ∀ el, (f el).id = el.id) :
    (l.map f).find? (fun el => el.id == i) =
      (l.find? (fun el => el.id == i)).map f := by
  induction l with
  | nil => rfl
  | cons a l ih =>
      have hfa : ((f a).id == i) = (a.id == i) := by rw [hf a]
      cases hb : (a.id == i)
      · simp [List.find?_cons, hfa, hb, ih]
      · simp [List.find?_cons, hfa, hb]

/-- Helper: the per element update function of updateSelectedText
preserves the layer id whenever the partial update does not name id. -/
theorem updFun_id_preserved (u : TextUpdate) (i : String) (hid : u.id = Option.none)
    (el : TextLayer) :
    ((if el.id == i then mergeLayer el u else el)).id = el.id := by
  cases hb : (el.id == i) <;> simp [mergeLayer, hid]

/-- The HTML range control of the spacing slider (attributes min -5 and
max 50 in the source) sanitizes an attempted value by clamping it into
the declared interval, per the platform semantics of range inputs. -/
def rangeClamp (lo hi v : Int) : Int := max lo (min hi v)

/-- Embedding of the spacing slider onChange path: the range control
clamps the attempted value into the interval from -5 to 50 and the
handler stores the resulting number through updateSelectedText. -/
def spacingInputChange (st : EditorState) (v : Int) : EditorState :=
  updateSelectedTextFn st { spacing := Option.some (rangeClamp (-5) 50 v) }

/-- The stored letterSpacing of the first layer with the given id. -/
def spacingOf (i : String) (ls : LogoSettings) : Option Int :=
  (ls.textElements.find? (fun el => el.id == i)).map (fun el => el.spacing)

/-- C7: attempting to set the letterSpacing of the selected text layer
to any value at or below -5 stores exactly -5 (in particular -5 stores
-5 and -6 stores -5), for every text layer and editor state. -/
theorem letterSpacing_floor_clamp (st : EditorState) (v : Int) (i : String)
    (hs : st.selectedElementId = Option.some i)
    (hv : v ≤ -5)
    (hpresent : (spacingOf i st.settings).isSome = true) :
    spacingOf i (spacingInputChange st v).settings = Option.some (-5) := by
  obtain ⟨el, hel⟩ : ∃ el,
      st.settings.textElements.find? (fun e => e.id == i) = Option.some el := by
    unfold spacingOf at hpresent
    cases hfind : st.settings.textElements.find? (fun e => e.id == i)
    · rw [hfind] at hpresent
      simp at hpresent
    · exact ⟨_, rfl⟩
  have hclamp : rangeClamp (-5) 50 v = -5 := by
    unfold rangeClamp
    have h1 : min 50 v = v := min_eq_right (by omega)
    rw [h1]
    exact max_eq_left hv
  have hidp := updFun_id_preserved { spacing := Option.some (rangeClamp (-5) 50 v) } i rfl
  have hmatch : (el.id == i) = true := by
    have h2 := List.find?_some hel
    simpa using h2
  unfold spacingInputChange
  simp only [updateSelectedTextFn, hs, spacingOf]
  have heq : el.id = i := by simpa using hmatch
  rw [find?_map_of_id_preserved _ _ _ hidp, hel]
  simp [heq, mergeLayer, hclamp]

/-- C7 witness: the clamp theorem applied to the concrete one layer
editor at the boundary value -5 and below it at -6. -/
theorem letterSpacing_floor_clamp_witness :
    spacingOf "a" (spacingInputChange sampleEditor (-5)).settings = Option.some (-5) ∧
    spacingOf "a" (spacingInputChange sampleEditor (-6)).settings = Option.some (-5) :=
  ⟨letterSpacing_floor_clamp sampleEditor (-5) "a" rfl (by decide) (by decide),
   letterSpacing_floor_clamp sampleEditor (-6) "a" rfl (by decide) (by decide)⟩

/-- C10 counterexample: a partial field update that names the id field
changes the id list of the collection although the targeted id is
present, so the set of ids is not unchanged under every partial update:
updating the single layer a with the partial record id b turns the id
list from a to b. -/
theorem updateSelectedText_id_field_cex :
    "a" ∈ sampleEditor.settings.textElements.map (fun el => el.id) ∧
    ¬ ((updateSelectedTextFn sampleEditor { id := Option.some "b" }).settings.textElements.map
          (fun el => el.id)
        = sampleEditor.settings.textElements.map (fun el => el.id)) := by
  decide

/-- The relation between an old layer and its updated image stating
that the update kept every field the partial record did not name. -/
def keepsUnnamedFields (u : TextUpdate) (el el2 : TextLayer) : Prop :=
  el2.id = el.id ∧
  (u.text = Option.none → el2.text = el.text) ∧
  (u.x = Option.none → el2.x = el.x) ∧
  (u.y = Option.none → el2.y = el.y) ∧
  (u.fontSize = Option.none → el2.fontSize = el.fontSize) ∧
  (u.fontFamily = Option.none → el2.fontFamily = el.fontFamily) ∧
  (u.color = Option.none → el2.color = el.color) ∧
  (u.spacing = Option.none → el2.spacing = el.spacing) ∧
  (u.rotation = Option.none → el2.rotation = el.rotation) ∧
  (u.fontWeight = Option.none → el2.fontWeight = el.fontWeight) ∧
  (u.align = Option.none → el2.align = el.align)

/-- C10 (amended): for every call to updateSelectedText with a selected
id present in the collection and any partial field update that does not
name the id field, the length of the collection, the list of ids and
their order are unchanged, every layer whose id differs from the
selected id keeps all its field values, and every targeted layer keeps
all fields not named in the update. -/
theorem updateSelectedText_frame (st : EditorState) (u : TextUpdate) (i : String)
    (hs : st.selectedElementId = Option.some i)
    (_hpresent : i ∈ st.settings.textElements.map (fun el => el.id))
    (hid : u.id = Option.none) :
    (updateSelectedTextFn st u).settings.textElements.length
      = st.settings.textElements.length ∧
    (updateSelectedTextFn st u).settings.textElements.map (fun el => el.id)
      = st.settings.textElements.map (fun el => el.id) ∧
    List.Forall₂
      (fun el el2 => (el.id ≠ i → el2 = el) ∧ (el.id = i → keepsUnnamedFields u el el2))
      st.settings.textElements (updateSelectedTextFn st u).settings.textElements := by
  simp only [updateSelectedTextFn, hs]
  refine ⟨by simp, ?_, ?_⟩
  · rw [List.map_map]
    refine List.map_congr_left ?_
    intro el hel
    exact updFun_id_preserved u i hid el
  · rw [List.forall₂_map_right_iff, List.forall₂_same]
    intro el hel
    constructor
    · intro hne
      have hb : (el.id == i) = false := by
        simp only [beq_eq_false_iff_ne, ne_eq]
        exact hne
      simp [hb]
    · intro heq
      have hb : (el.id == i) = true := by
        simp only [beq_iff_eq]
        exact heq
      simp only [hb, if_true]
      unfold keepsUnnamedFields
      refine ⟨by simp [mergeLayer, hid], ?_, ?_, ?_, ?_, ?_, ?_, ?_, ?_, ?_, ?_⟩ <;>
        · intro hnone
          simp [mergeLayer, hnone]

/-- C10 witness: the frame theorem applied to the concrete one layer
editor with a text only update. -/
theorem updateSelectedText_frame_witness :
    (updateSelectedTextFn sampleEditor { text := Option.some "NEW" }).settings.textElements.map
        (fun el => el.id)
      = sampleEditor.settings.textElements.map (fun el => el.id) :=
  (updateSelectedText_frame sampleEditor { text := Option.some "NEW" } "a"
    rfl (by decide) rfl).2.1

/-- The position of the first layer with the given id, as a pair. -/
def positionOf (i : String) (ls : LogoSettings) : Option (Int × Int) :=
  (ls.textElements.find? (fun el => el.id == i)).map (fun el => (el.x, el.y))

/-- Folding a list of pointer positions through handleMouseMove. -/
def applyMoves (st : EditorState) (ps : List (Int × Int)) : EditorState :=
  ps.foldl handleMouseMove st

/-- The pointer trajectory generated by a list of per move deltas from
a starting pointer position: each move lands at the previous pointer
position plus its delta. -/
def deltasToPointers (start : Int × Int) : List (Int × Int) → List (Int × Int)
  | [] => []
  | d :: ds =>
      let p := (start.1 + d.1, start.2 + d.2)
      p :: deltasToPointers p ds

/-- Helper: one pointer move during a drag adds exactly the pointer
delta to the dragged layer position, keeps the drag and the selection,
and records the new pointer position. -/
theorem handleMouseMove_step (st : EditorState) (p : Int × Int) (i : String)
    (x y : Int)
    (hd : st.isDragging = true)
    (hs : st.selectedElementId = Option.some i)
    (hp : positionOf i st.settings = Option.some (x, y)) :
    positionOf i (handleMouseMove st p).settings
        = Option.some (x + (p.1 - st.dragStart.1), y + (p.2 - st.dragStart.2)) ∧
    (handleMouseMove st p).isDragging = true ∧
    (handleMouseMove st p).selectedElementId = Option.some i ∧
    (handleMouseMove st p).dragStart = p := by
  obtain ⟨el, hel⟩ : ∃ el,
      st.settings.textElements.find? (fun e => e.id == i) = Option.some el := by
    unfold positionOf at hp
    cases hfind : st.settings.textElements.find? (fun e => e.id == i)
    · rw [hfind] at hp
      simp at hp
    · exact ⟨_, rfl⟩
  have hxy : el.x = x ∧ el.y = y := by
    unfold positionOf at hp
    rw [hel] at hp
    simp at hp
    exact ⟨hp.1, hp.2⟩
  have heq : el.id = i := by
    have h2 := List.find?_some hel
    simpa using h2
  have hu : ∀ q r, (TextUpdate.mk Option.none Option.none (Option.some q) (Option.some r)
      Option.none Option.none Option.none Option.none Option.none Option.none
      Option.none).id = Option.none := fun _ _ => rfl
  simp only [handleMouseMove, hd, hs, hel]
  refine ⟨?_, ?_, ?_, by trivial⟩
  · simp only [updateSelectedTextFn, hs, positionOf]
    rw [find?_map_of_id_preserved _ _ _ (updFun_id_preserved _ i rfl), hel]
    simp [heq, mergeLayer, hxy.1, hxy.2]
  · simp [updateSelectedTextFn, hs, hd]
  · simp [updateSelectedTextFn, hs]

/-- C2: during a drag, each pointer move adds the incremental pointer
delta to the dragged layer position and records the new pointer
position; consequently, for every starting position and every finite
sequence of pointer move deltas, the final layer position equals the
start plus the componentwise sum of the deltas. -/
theorem drag_delta_accumulation (ds : List (Int × Int)) (st : EditorState)
    (i : String) (x y : Int)
    (hd : st.isDragging = true)
    (hs : st.selectedElementId = Option.some i)
    (hp : positionOf i st.settings = Option.some (x, y)) :
    positionOf i (applyMoves st (deltasToPointers st.dragStart ds)).settings
      = Option.some (x + (ds.map Prod.fst).sum, y + (ds.map Prod.snd).sum) := by
  induction ds generalizing st x y with
  | nil =>
      simpa [applyMoves, deltasToPointers] using hp
  | cons d ds ih =>
      have hstep := handleMouseMove_step st
        (st.dragStart.1 + d.1, st.dragStart.2 + d.2) i x y hd hs hp
      have hx : x + (st.dragStart.1 + d.1 - st.dragStart.1) = x + d.1 := by ring_nf
      have hy : y + (st.dragStart.2 + d.2 - st.dragStart.2) = y + d.2 := by ring_nf
      rw [hx, hy] at hstep
      have hrec := ih (handleMouseMove st (st.dragStart.1 + d.1, st.dragStart.2 + d.2))
        (x + d.1) (y + d.2) hstep.2.1 hstep.2.2.1 hstep.1
      rw [hstep.2.2.2] at hrec
      simp only [deltasToPointers, applyMoves, List.foldl_cons] at hrec ⊢
      rw [hrec]
      simp [add_assoc]

/-- A concrete dragging editor state: one layer with id t at position
100, 100; selected, dragging, with the pointer recorded at the origin. -/
def draggingEditor : EditorState :=
  { settings :=
      { sampleSettings with textElements :=
          [{ sampleLayer with id := "t", x := 100, y := 100 }] }
    selectedElementId := Option.some "t"
    isDragging := true
    dragStart := (0, 0) }

/-- C2 witness: the delta sequence of the specification test, three
moves by 3 0, 0 4 and -1 -1 from the start 100 100, lands at exactly
102 103. -/
theorem drag_delta_accumulation_witness :
    positionOf "t"
        (applyMoves draggingEditor
          (deltasToPointers draggingEditor.dragStart [(3, 0), (0, 4), (-1, -1)])).settings
      = Option.some (102, 103) := by
  have h := drag_delta_accumulation [(3, 0), (0, 4), (-1, -1)] draggingEditor
    "t" 100 100 rfl rfl (by decide)
  simpa using h

/-- One color palette of the generated brand data (the fields the
export engine reads). -/
structure ColorPalette where
  name : String
  colors : List String
  style : String
deriving DecidableEq, Repr

/-- The three font family recommendations of the generated data. -/
structure BrandFonts where
  logo : String
  heading : String
  body : String
deriving DecidableEq, Repr

/-- The five part brand story of the generated data. -/
structure BrandStory where
  vision : String
  mission : String
  problem : String
  solution : String
  positioning : String
deriving DecidableEq, Repr

/-- The marketing copy fields of the generated data that the export
engine reads (the remaining marketing fields are never consumed by the
operations modelled here and are omitted). -/
structure BrandMarketing where
  shortDescription : String
deriving DecidableEq, Repr

/-- The visual identity fields of the generated data that the export
engine reads. -/
structure BrandVisuals where
  palettes : List ColorPalette
  selectedPaletteIndex : Nat
  fonts : BrandFonts
  logoIconUrl : Option String
deriving DecidableEq, Repr

/-- The generated brand data bundle (export relevant fields). -/
structure BrandGeneratedData where
  story : BrandStory
  marketing : BrandMarketing
  visuals : BrandVisuals
deriving DecidableEq, Repr

/-- A brand project record (export relevant fields); generatedData is
optional exactly as in the TypeScript interface. -/
structure BrandProject where
  name : String
  industry : String
  tone : String
  generatedData : Option BrandGeneratedData
deriving DecidableEq, Repr

/-- Helper for the output file name: the source replaces every maximal
whitespace run of the project name by one underscore (the regex
replacement with a one or more whitespace pattern); the Bool argument
tracks whether the previous character was whitespace. -/
def squashWsAux : Bool → List Char → List Char
  | _, [] => []
  | prevWs, c :: cs =>
      if c.isWhitespace then
        if prevWs then squashWsAux true cs
        else '_' :: squashWsAux true cs
      else c :: squashWsAux false cs

/-- The output file name of the PDF export, from the doc.save call. -/
def pdfFileName (name : String) : String :=
  String.mk (squashWsAux false name.data) ++ "_BrandKit.pdf"

/-- The cover title of the export: the project name, or the fallback
Brand Name when the name is empty (the JavaScript or-expression on a
falsy empty string). -/
def titleOf (name : String) : String :=
  if name = "" then "Brand Name" else name

/-- The running page cursor of the PDF export.  The vertical position y
is kept in fifths of a millimetre so that the 0.4 line height factor of
the source is exact: the source threshold 280 becomes 1400, the top
margin 20 becomes 100, the 6 unit gap becomes 30, and a block of n
wrapped lines at font size s is n times s times 0.4, that is 2 n s in
fifths. -/
structure Cursor where
  page : Nat
  y : Int
deriving DecidableEq, Repr

/-- One drawn element of the export document, tagged with its page. -/
inductive DocItem
  | centeredText (page : Nat) (content : String)
  | image (page : Nat)
  | textBlock (page : Nat) (y : Int) (content : String) (lineCount : Nat) (size : Int)
  | swatch (page : Nat) (color : String)
deriving DecidableEq, Repr

/-- Embedding of the addText closure inside exportToPDF: wrap the text
(the wrapped line count is passed in), and when the cursor plus the
block height would pass the printable bottom, open a new page and reset
the cursor to the top margin before placing the block; afterwards move
the cursor below the block plus the fixed gap. -/
def addTextOp (c : Cursor) (content : String) (lineCount : Nat) (size : Int) :
    Cursor × List DocItem :=
  if c.y + 2 * (lineCount : Int) * size > 1400 then
    (⟨c.page + 1, 100 + 2 * (lineCount : Int) * size + 30⟩,
      [DocItem.textBlock (c.page + 1) 100 content lineCount size])
  else
    (⟨c.page, c.y + 2 * (lineCount : Int) * size + 30⟩,
      [DocItem.textBlock c.page c.y content lineCount size])

/-- Sequencing helper: run addText over an accumulated item list.  The
wrap function models doc.splitTextToSize of the jsPDF library, giving
the wrapped line count of a string at the content width. -/
def runAddText (st : Cursor × List DocItem) (content : String)
    (wrap : String → Nat) (size : Int) : Cursor × List DocItem :=
  let r := addTextOp st.1 content (wrap content) size
  (r.1, st.2 ++ r.2)

/-- Sequencing helper: a bare cursor advance (the y plus constant
statements between addText calls), in fifths. -/
def runBump (st : Cursor × List DocItem) (k : Int) : Cursor × List DocItem :=
  (⟨st.1.page, st.1.y + k⟩, st.2)

/-- Sequencing helper: an explicit doc.addPage followed by the cursor
reset to the top margin. -/
def runAddPage (st : Cursor × List DocItem) : Cursor × List DocItem :=
  (⟨st.1.page + 1, 100⟩, st.2)

/-- The observable exit of one export invocation: a saved file, the
silent early return, or an uncaught exception. -/
inductive ExportOutcome
  | saved (fileName : String)
  | silent
  | crashed
deriving DecidableEq, Repr

/-- The full observable result of one export invocation: its exit, the
drawn document elements, and the logged failures. -/
structure ExportResult where
  outcome : ExportOutcome
  items : List DocItem
  log : List String
deriving DecidableEq, Repr

/-- Embedding of the exportToPDF pages after the cover: the strategy
page chain starting on page 2 at the top margin, the page break to the
visual identity page, and the palette, typography and marketing blocks.
Reading a palette at an index outside the palette list is the undefined
member access of the source and aborts the document (first component
false); otherwise the save point is reached (first component true). -/
def exportBody (p : BrandProject) (d : BrandGeneratedData)
    (wrap : String → Nat) : Bool × List DocItem :=
  let st0 : Cursor × List DocItem := (⟨2, 100⟩, [])
  let st1 := runAddText st0 "Strategic Overview" wrap 18
  let st2 := runBump st1 25
  let st3 := runAddText st2 ("Industry: " ++ p.industry) wrap 12
  let st4 := runAddText st3 ("Tone: " ++ p.tone) wrap 12
  let st5 := runBump st4 25
  let st6 := runAddText st5 "Vision & Mission" wrap 14
  let st7 := runAddText st6 d.story.vision wrap 11
  let st8 := runBump st7 10
  let st9 := runAddText st8 d.story.mission wrap 11
  let st10 := runBump st9 50
  let st11 := runAddText st10 "Strategic Positioning" wrap 14
  let st12 := runAddText st11 d.story.positioning wrap 11
  let st13 := runAddPage st12
  let st14 := runAddText st13 "Visual Identity System" wrap 18
  let st15 := runBump st14 25
  let st16 := runAddText st15 "Color Palette" wrap 14
  match d.visuals.palettes.get? d.visuals.selectedPaletteIndex with
  | Option.none => (false, st16.2)
  | Option.some pal =>
      let sw := pal.colors.map (fun col => DocItem.swatch st16.1.page col)
      let st17 : Cursor × List DocItem := (⟨st16.1.page, st16.1.y + 250⟩, st16.2 ++ sw)
      let st18 := runAddText st17 "Typography" wrap 14
      let st19 := runAddText st18 ("Logo Font: " ++ d.visuals.fonts.logo) wrap 11
      let st20 := runAddText st19 ("Heading Font: " ++ d.visuals.fonts.heading) wrap 11
      let st21 := runAddText st20 ("Body Font: " ++ d.visuals.fonts.body) wrap 11
      let st22 := runBump st21 50
      let st23 := runAddText st22 "Marketing Content" wrap 14
      let st24 := runAddText st23 d.marketing.shortDescription wrap 11
      (true, st24.2)

/-- Embedding of exportToPDF.  With no generated data the function
returns at once, drawing nothing, saving nothing and logging nothing.
Otherwise the cover page carries the centered title, the icon image
when a url is present and its decode succeeds (iconOk models the
try block around doc.addImage; on failure the error is logged and the
icon skipped), and the footer attribution; then the remaining pages are
drawn and the document is saved under the derived file name. -/
def exportToPDF (p : BrandProject) (wrap : String → Nat) (iconOk : Bool) :
    ExportResult :=
  match p.generatedData with
  | Option.none => ⟨ExportOutcome.silent, [], []⟩
  | Option.some d =>
      let iconItems : List DocItem :=
        match d.visuals.logoIconUrl with
        | Option.some _ => if iconOk then [DocItem.image 1] else []
        | Option.none => []
      let iconLog : List String :=
        match d.visuals.logoIconUrl with
        | Option.some _ => if iconOk then [] else ["addImage error"]
        | Option.none => []
      let page1 : List DocItem :=
        DocItem.centeredText 1 (titleOf p.name) :: iconItems ++
          [DocItem.centeredText 1 "BrandForge AI Generated Identity"]
      let body := exportBody p d wrap
      ⟨if body.1 then ExportOutcome.saved (pdfFileName p.name) else ExportOutcome.crashed,
        page1 ++ body.2, iconLog⟩

/-- C6: for every block placed by the running cursor routine, if the
cursor plus the wrapped line count times the line height would exceed
the printable page height then a new page is started and the cursor is
reset to the top margin before that block is placed, and otherwise the
block is placed at the current cursor (all heights in fifths of the
source units: threshold 280 is 1400, top margin 20 is 100, gap 6 is 30,
and a block of n lines at size s is 2 n s). -/
theorem addText_pagination (c : Cursor) (content : String) (n : Nat) (s : Int) :
    (c.y + 2 * (n : Int) * s > 1400 →
        addTextOp c content n s =
          (⟨c.page + 1, 100 + 2 * (n : Int) * s + 30⟩,
            [DocItem.textBlock (c.page + 1) 100 content n s])) ∧
    (c.y + 2 * (n : Int) * s ≤ 1400 →
        addTextOp c content n s =
          (⟨c.page, c.y + 2 * (n : Int) * s + 30⟩,
            [DocItem.textBlock c.page c.y content n s])) := by
  unfold addTextOp
  constructor
  · intro h
    rw [if_pos h]
  · intro h
    rw [if_neg (by omega)]

/-- C6 witness: the pagination theorem at two concrete blocks, one that
overflows the page (cursor 1000, twenty lines of size 11, total 1440
over the 1400 threshold, placed on the next page at the top margin) and
one that fits (cursor 100, two lines of size 11). -/
theorem addText_pagination_witness :
    addTextOp ⟨1, 1000⟩ "body" 20 11 =
      (⟨2, 100 + 2 * (20 : Int) * 11 + 30⟩, [DocItem.textBlock 2 100 "body" 20 11]) ∧
    addTextOp ⟨1, 100⟩ "body2" 2 11 =
      (⟨1, 100 + 2 * (2 : Int) * 11 + 30⟩, [DocItem.textBlock 1 100 "body2" 2 11]) :=
  ⟨(addText_pagination ⟨1, 1000⟩ "body" 20 11).1 (by decide),
   (addText_pagination ⟨1, 100⟩ "body2" 2 11).2 (by decide)⟩

/-- C8: when the icon url is present but its decode fails, the export
logs the failure, skips only the icon, and still produces the identical
remaining document with the same exit as the successful decode run: the
two item lists differ exactly by the one cover page image element. -/
theorem export_icon_failure_degrades (p : BrandProject) (d : BrandGeneratedData)
    (wrap : String → Nat) (u : String)
    (hd : p.generatedData = Option.some d)
    (hurl : d.visuals.logoIconUrl = Option.some u) :
    (exportToPDF p wrap false).outcome = (exportToPDF p wrap true).outcome ∧
    (exportToPDF p wrap true).items
      = DocItem.centeredText 1 (titleOf p.name) :: DocItem.image 1 ::
          DocItem.centeredText 1 "BrandForge AI Generated Identity" ::
            (exportBody p d wrap).2 ∧
    (exportToPDF p wrap false).items
      = DocItem.centeredText 1 (titleOf p.name) ::
          DocItem.centeredText 1 "BrandForge AI Generated Identity" ::
            (exportBody p d wrap).2 ∧
    (exportToPDF p wrap false).log = ["addImage error"] := by
  simp [exportToPDF, hd, hurl]

/-- Helper: with a selected palette index inside the palette list the
export body reaches the save point. -/
theorem exportBody_reaches_save (p : BrandProject) (d : BrandGeneratedData)
    (wrap : String → Nat)
    (hidx : d.visuals.selectedPaletteIndex < d.visuals.palettes.length) :
    (exportBody p d wrap).1 = true := by
  have hpal := List.getElem?_eq_getElem hidx
  simp [exportBody, hpal]

/-- C9 counterexample: on a project whose generated data is absent the
export returns with the silent outcome, no drawn items, no saved file
and an empty failure log, so an invocation can end with neither a saved
document nor a logged failure. -/
theorem export_missing_data_silent_cex :
    exportToPDF
        { name := "Acme", industry := "Tech", tone := "Professional",
          generatedData := Option.none }
        (fun _ => 1) true
      = { outcome := ExportOutcome.silent, items := [], log := [] } := by
  rfl

/-- C9 (amended): when the generated data is present and the selected
palette index is inside the palette list, every export invocation ends
with the saved document under the derived file name; when the generated
data is absent the invocation returns silently, producing no file, no
items and no log entry. -/
theorem export_outcome_total (p : BrandProject) (d : BrandGeneratedData)
    (wrap : String → Nat) (iconOk : Bool) :
    (p.generatedData = Option.some d →
        d.visuals.selectedPaletteIndex < d.visuals.palettes.length →
        (exportToPDF p wrap iconOk).outcome = ExportOutcome.saved (pdfFileName p.name)) ∧
    (p.generatedData = Option.none →
        exportToPDF p wrap iconOk
          = { outcome := ExportOutcome.silent, items := [], log := [] }) := by
  constructor
  · intro hd hidx
    have hbody := exportBody_reaches_save p d wrap hidx
    simp [exportToPDF, hd, hbody]
  · intro hd
    simp [exportToPDF, hd]

/-- A concrete generated data bundle for the export witnesses. -/
def sampleData : BrandGeneratedData :=
  { story :=
      { vision := "To light every brand."
        mission := "We craft identities."
        problem := "Brands feel generic."
        solution := "Tailored identity kits."
        positioning := "Premium yet accessible." }
    marketing := { shortDescription := "An identity studio." }
    visuals :=
      { palettes :=
          [{ name := "Dawn"
             colors := ["#111111", "#222222", "#333333", "#444444", "#555555"]
             style := "modern" }]
        selectedPaletteIndex := 0
        fonts := { logo := "Montserrat", heading := "Lato", body := "Open Sans" }
        logoIconUrl := Option.some "data:image/png;base64,icon" } }

/-- A concrete project carrying the sample generated data. -/
def sampleProject : BrandProject :=
  { name := "Acme Co"
    industry := "Tech"
    tone := "Professional"
    generatedData := Option.some sampleData }

/-- C8 witness: the icon failure theorem applied to the concrete sample
project: the failed decode run has the same exit as the successful one
and logs the failure. -/
theorem export_icon_failure_degrades_witness :
    (exportToPDF sampleProject (fun _ => 1) false).outcome
        = (exportToPDF sampleProject (fun _ => 1) true).outcome ∧
    (exportToPDF sampleProject (fun _ => 1) false).log = ["addImage error"] :=
  ⟨(export_icon_failure_degrades sampleProject sampleData (fun _ => 1)
      "data:image/png;base64,icon" rfl rfl).1,
   (export_icon_failure_degrades sampleProject sampleData (fun _ => 1)
      "data:image/png;base64,icon" rfl rfl).2.2.2⟩

/-- C9 witness: the amended export theorem applied to the concrete
sample project, whose generated data is present with a valid selected
palette: the exit is the saved document. -/
theorem export_outcome_total_witness :
    (exportToPDF sampleProject (fun _ => 1) true).outcome
      = ExportOutcome.saved (pdfFileName sampleProject.name) :=
  (export_outcome_total sampleProject sampleData (fun _ => 1) true).1 rfl (by decide)
